import Mathlib

/-!
Verification of the `sitemap-scrapping` scraper (`src/scraper.js`).

The source file contains two near-identical script variants:
- the *spreadsheet variant* (first half of the file): reads URLs from an
  Excel/CSV column, processes them sequentially with an orchestrator-level
  retry loop around `scrapeUrl`;
- the *sitemap variant* (second half): reads URLs from a remote sitemap,
  classifies them with the target-domain predicate `isTargetUrl`, and
  processes them in concurrent batches.

This file shallowly embeds the decision logic of both variants:
strings are Lean `String`s (the JS truthiness test on a string is
emptiness), file contents are explicit lists threaded through the
functions, the HTTP fetch plus DOM extraction is an oracle
`Nat → FetchResult` indexed by the global request count, and JS numbers
in the price-discount computation are exact scaled-integer decimals (all
inputs examined by the claims are exactly representable as doubles, where
the two semantics agree).

Fields of an extracted record that no control-flow or persistence
decision in the scraper ever inspects (country, UTQG, images, ...) are
elided from the record type: every branch in the source reads only
`url`, `name`, `sizeNo` and `price`.
-/

/-- JS truthiness of a string: empty strings are falsy, all others truthy. -/
def truthy (s : String) : Bool := s != ""

/-- An extracted record (`tireData` built by `scrapeTireData`), restricted to
the fields the scraper's decisions read. -/
structure TireData where
  url : String
  name : String
  sizeNo : String
  price : String
deriving DecidableEq

/-- The incomplete-extraction test, from
`if (!tireData.name || !tireData.sizeNo) throw ...`
(lines 156-158 of the spreadsheet variant and 594-596 of the sitemap
variant, identical in both). -/
def isIncomplete (t : TireData) : Bool := !truthy t.name || !truthy t.sizeNo

/-- A URL passes the success criterion (is marked success / returned as a
record) exactly when it is not declared incomplete. -/
def successCriterion (t : TireData) : Bool := !isIncomplete t

/-- `saveProgress(url, filename)` (lines 122-133 / 557-567): reads the
persisted list, appends `url` only when absent, writes it back.  The file
content is modelled as the list itself. -/
def saveProgress (url : String) (processedUrls : List String) : List String :=
  if processedUrls.contains url then processedUrls else processedUrls ++ [url]

/- ### Target-domain predicate (sitemap variant, lines 497-508) -/

/-- Characters allowed in a URL scheme after its leading letter. -/
def isSchemeChar (c : Char) : Bool := c.isAlphanum || c == '+' || c == '-' || c == '.'

/-- Characters that terminate the host part of a URL authority. -/
def isHostEnd (c : Char) : Bool := c == '/' || c == ':' || c == '?' || c == '#'

/-- Split a character list at the first occurrence of the separator `://`;
`none` when the separator does not occur. -/
def splitAtSchemeSep : List Char → Option (List Char × List Char)
  | [] => none
  | c :: cs =>
    if List.isPrefixOf [':', '/', '/'] (c :: cs) then some ([], cs.drop 2)
    else
      match splitAtSchemeSep cs with
      | some (pre, post) => some (c :: pre, post)
      | none => none

/-- Modelled from the spec: `isTargetUrl` calls the platform-builtin WHATWG
`URL` constructor (`new URL(url)`, code outside this repository); the spec
describes it as "parses the URL, accepts iff its host exactly matches one of
a configured allow-list of hostnames; on URL-parse failure, rejects".  We
model the parse as: a string parses when it has the shape
`<scheme>://<host><rest>` with a scheme that starts with a letter and
continues with scheme characters, and a non-empty host (ended by `/`, `:`,
`?` or `#`); the hostname is the host part lowercased.  Strings without
`://`, or with an empty scheme or host, fail to parse (the constructor
throws). -/
def parseHostname (s : String) : Option String :=
  match splitAtSchemeSep s.data with
  | none => none
  | some (schemeChars, afterScheme) =>
    match schemeChars with
    | [] => none
    | c :: cs =>
      if c.isAlpha && cs.all isSchemeChar then
        match afterScheme.takeWhile (fun ch => !isHostEnd ch) with
        | [] => none
        | hostChars => some (String.mk (hostChars.map Char.toLower))
      else none

/-- `isTargetUrl` (lines 497-508), generalized over the configured
`targetDomains` allow-list:
`try { const urlObj = new URL(url); return CONFIG.targetDomains.includes(urlObj.hostname); } catch { return false; }` -/
def isTargetUrl (targetDomains : List String) (url : String) : Bool :=
  match parseHostname url with
  | some hostname => targetDomains.contains hostname
  | none => false

/-- `CONFIG.targetDomains` of the sitemap variant (line 471). -/
def CONFIG_targetDomains : List String := ["www.pitstoparabia.com"]

/-- `isTargetUrl` at the configured allow-list, as called by the scraper. -/
def isTargetUrlConfig (url : String) : Bool := isTargetUrl CONFIG_targetDomains url

/- ### C1: the incomplete-extraction condition -/

/-- A record with a non-empty name but an empty size designator. -/
def nameOnlyRecord : TireData :=
  { url := "https://www.pitstoparabia.com/tyres/a"
    name := "Michelin Pilot Sport 4"
    sizeNo := ""
    price := "AED 100.00" }

/-- C1 counterexample: the claim says a record with at least one of the two
mandatory fields non-empty is not declared incomplete; but the code tests
`!name || !sizeNo`, so a record whose name is non-empty while its size is
empty is still declared incomplete. -/
theorem c1_counterexample :
    isIncomplete nameOnlyRecord = true ∧ nameOnlyRecord.name ≠ "" := by
  decide

/-- C1 (amended): the extractor declares a scraped record incomplete exactly
when at least one of the two mandatory fields (product name, size
designator) is empty after all selector fallbacks; only a record with both
fields non-empty escapes the incomplete-extraction error. -/
theorem c1_incomplete_iff_some_mandatory_empty (t : TireData) :
    isIncomplete t = true ↔ (t.name = "" ∨ t.sizeNo = "") := by
  simp [isIncomplete, truthy]

/- ### C6: the target-domain predicate -/

/-- C6: the target-domain predicate accepts a URL string iff it parses to a
hostname that is an exact member of the allow-list, and rejects any string
that fails to parse; with allow-list `{"example.com"}`,
`https://example.com/tyre/1` is accepted, `https://other.com/x` is rejected,
and a malformed string is rejected. -/
theorem c6_target_predicate :
    (∀ (doms : List String) (url : String),
        isTargetUrl doms url = true ↔
          ∃ h, parseHostname url = some h ∧ h ∈ doms) ∧
    isTargetUrl ["example.com"] "https://example.com/tyre/1" = true ∧
    isTargetUrl ["example.com"] "https://other.com/x" = false ∧
    isTargetUrl ["example.com"] "not a url" = false := by
  refine ⟨fun doms url => ?_, by decide, by decide, by decide⟩
  unfold isTargetUrl
  cases h : parseHostname url with
  | none => simp [h]
  | some hostname => simp [h, List.contains, List.elem_iff]

/- ### C8: ledger sets via saveProgress -/

/-- One run of ledger updates: fold a sequence of `saveProgress` calls over
the prior persisted sequence. -/
def runSaveProgress (prior : List String) (calls : List String) : List String :=
  calls.foldl (fun state url => saveProgress url state) prior

theorem saveProgress_mem {u : String} {l : List String} (v : String)
    (h : u ∈ l) : u ∈ saveProgress v l := by
  unfold saveProgress
  split
  · exact h
  · exact List.mem_append_left _ h

theorem saveProgress_nodup {l : List String} (v : String)
    (h : l.Nodup) : (saveProgress v l).Nodup := by
  unfold saveProgress
  split
  · exact h
  · rename_i hc
    simp only [List.contains, List.elem_iff] at hc
    simp [List.nodup_append, h, hc]

/-- C8 counterexample: the claim quantifies over every prior state of a
ledger file; starting from a prior persisted sequence that already holds a
duplicate, `saveProgress` leaves the duplicate in place, so the resulting
sequence does not contain each URL at most once. -/
theorem c8_counterexample :
    ¬ (runSaveProgress ["a", "a"] ["b"]).Nodup := by
  decide

/-- C8 (amended): ledger sets are append-only, and duplicate-free provided
the prior persisted sequence is duplicate-free (as every sequence produced
by `initializeFiles` and `saveProgress` alone is): for every prior state and
every sequence of `saveProgress` calls, the result retains every URL the
prior state contained, and if the prior sequence held each URL at most once
then so does the result. -/
theorem c8_append_only_nodup (prior calls : List String) :
    (∀ u ∈ prior, u ∈ runSaveProgress prior calls) ∧
    (prior.Nodup → (runSaveProgress prior calls).Nodup) := by
  induction calls generalizing prior with
  | nil => exact ⟨fun u hu => hu, fun h => h⟩
  | cons c rest ih =>
    refine ⟨fun u hu => ?_, fun h => ?_⟩
    · exact (ih (saveProgress c prior)).1 u (saveProgress_mem c hu)
    · exact (ih (saveProgress c prior)).2 (saveProgress_nodup c h)

/-- C8 witness: the amended theorem applied at the concrete prior state
`["a"]` and call sequence `["b", "a"]`. -/
theorem c8_append_only_nodup_witness :
    "a" ∈ runSaveProgress ["a"] ["b", "a"] ∧
    (runSaveProgress ["a"] ["b", "a"]).Nodup :=
  ⟨(c8_append_only_nodup ["a"] ["b", "a"]).1 "a" (by decide),
   (c8_append_only_nodup ["a"] ["b", "a"]).2 (by decide)⟩

/- ### C7: discounted-price computation (sitemap variant, lines 659-668) -/

/-- A character matched by the regex class `[\d,]`. -/
def isNumChar (c : Char) : Bool := c.isDigit || c == ','

/-- First match of the regex `[\d,]+\.?\d*` in a character list: the scan
finds the first digit-or-comma, takes the maximal run of digits and commas,
then an optional dot followed by the maximal run of digits. -/
def numericMatchAux : List Char → Option (List Char)
  | [] => none
  | c :: cs =>
    if isNumChar c then
      let run := (c :: cs).takeWhile isNumChar
      match (c :: cs).dropWhile isNumChar with
      | '.' :: rest => some (run ++ '.' :: rest.takeWhile (fun d => d.isDigit))
      | _ => some run
    else numericMatchAux cs

/-- `priceStr.match(/[\d,]+\.?\d*/)`, as a string. -/
def numericMatch (s : String) : Option String :=
  (numericMatchAux s.data).map String.mk

/-- `numericMatch[0].replace(/,/g, "")`: delete every comma. -/
def removeCommas (l : List Char) : List Char := l.filter (fun c => c != ',')

/-- Numeric value of a list of decimal digits. -/
def digitsToNat (l : List Char) : Nat :=
  l.foldl (fun acc c => acc * 10 + (c.toNat - '0'.toNat)) 0

/-- An exact decimal number `num / 10 ^ scale`.  JS double arithmetic in
the discount computation is modelled by exact decimal arithmetic; every
value the claims evaluate is exactly representable as a double, where the
two semantics agree. -/
structure DecimalValue where
  num : Int
  scale : Nat
deriving DecidableEq

/-- `parseFloat` on the comma-stripped match (a string of digits with at
most one dot): `none` models `NaN` (no digit at all), otherwise the exact
decimal value. -/
def parseDecimal (l : List Char) : Option DecimalValue :=
  let intDigits := l.takeWhile (fun c => c.isDigit)
  match l.dropWhile (fun c => c.isDigit) with
  | [] =>
    if intDigits.isEmpty then none
    else some { num := (digitsToNat intDigits : Int), scale := 0 }
  | '.' :: fracDigits =>
    if intDigits.isEmpty && fracDigits.isEmpty then none
    else some { num := (digitsToNat (intDigits ++ fracDigits) : Int),
                scale := fracDigits.length }
  | _ => none

/-- Subtract a whole-number offset from a decimal value. -/
def subOffset (v : DecimalValue) (offset : Int) : DecimalValue :=
  { v with num := v.num - offset * (10 : Int) ^ v.scale }

/-- Two-digit zero padding for the fractional part. -/
def pad2 (n : Nat) : String := if n < 10 then "0" ++ toString n else toString n

/-- `Number.prototype.toFixed(2)`: the integer `n` with `n / 100` closest to
the value, ties toward the larger `n`, printed with two decimals.  For a
value `num / 10 ^ scale` that integer is `⌊(200 * num + 10 ^ scale) / (2 * 10 ^ scale)⌋`. -/
def toFixed2 (v : DecimalValue) : String :=
  let d : Int := (10 : Int) ^ v.scale
  let n : Int := Int.fdiv (200 * v.num + d) (2 * d)
  let sign := if n < 0 then "-" else ""
  sign ++ toString (n.natAbs / 100) ++ "." ++ pad2 (n.natAbs % 100)

/-- `priceStr.replace(m, "")` for the matched string `m`: remove the first
occurrence of `m`.  (The regex match is the first occurrence of the matched
text: any earlier occurrence would start with a digit or comma placed before
the first digit-or-comma of the string.) -/
def removeFirst (s pat : List Char) : List Char :=
  match s with
  | [] => []
  | c :: cs =>
    if List.isPrefixOf pat (c :: cs) then (c :: cs).drop pat.length
    else c :: removeFirst cs pat

/-- `calculateDiscountedPrice` (lines 659-668): empty input maps to the
empty string; an input with no numeric match, or whose match parses to
`NaN`, is returned unchanged; otherwise the parsed value minus the fixed
offset `5`, formatted with two decimals, replaces the matched number. -/
def calculateDiscountedPrice (priceStr : String) : String :=
  if priceStr == "" then ""
  else
    match numericMatch priceStr with
    | none => priceStr
    | some m =>
      match parseDecimal (removeCommas m.data) with
      | none => priceStr
      | some numericValue =>
        let discountedPrice := subOffset numericValue 5
        let currencyPart := String.mk (removeFirst priceStr.data m.data)
        currencyPart ++ toFixed2 discountedPrice

/-- C7: with the fixed offset 5, `"AED 100.00"` yields `"AED 95.00"`; any
price string with no numeric component is returned unchanged; the empty
string yields the empty string. -/
theorem c7_discounted_price :
    calculateDiscountedPrice "AED 100.00" = "AED 95.00" ∧
    (∀ p : String, numericMatch p = none → calculateDiscountedPrice p = p) ∧
    calculateDiscountedPrice "" = "" := by
  refine ⟨by decide, fun p hp => ?_, by decide⟩
  unfold calculateDiscountedPrice
  rw [hp]
  split
  · rename_i hempty
    simp only [beq_iff_eq] at hempty
    rw [hempty]
  · rfl

/-- C7 witness: the no-numeric-component branch of the theorem applied at
the concrete input `"Call for price"`. -/
theorem c7_discounted_price_witness :
    calculateDiscountedPrice "Call for price" = "Call for price" :=
  c7_discounted_price.2.1 "Call for price" (by decide)

/- ### Record Store merge and flush (`saveData`, lines 285-346 / 784-870) -/

/-- One step of the spreadsheet variant's merge loop (lines 293-298):
`if (!existingUrls.has(newItem.url)) { mergedData.push(newItem); existingUrls.add(newItem.url); }`.
The accumulator pairs the merged list with the seen-URL set. -/
def mergeStepA (acc : List TireData × List String) (newItem : TireData) :
    List TireData × List String :=
  if !(acc.2.contains newItem.url) then (acc.1 ++ [newItem], acc.2 ++ [newItem.url])
  else acc

/-- One step of the sitemap variant's merge loop (lines 807-812):
`if (newItem && newItem.url && !existingUrls.has(newItem.url)) { ... }`. -/
def mergeStepB (acc : List TireData × List String) (newItem : TireData) :
    List TireData × List String :=
  if truthy newItem.url && !(acc.2.contains newItem.url) then
    (acc.1 ++ [newItem], acc.2 ++ [newItem.url])
  else acc

/-- Spreadsheet-variant merge: start from the existing store and its URL
set, fold the new records through the guard. -/
def mergeDataA (existingData newData : List TireData) : List TireData :=
  (newData.foldl mergeStepA (existingData, existingData.map (fun t => t.url))).1

/-- Sitemap-variant merge. -/
def mergeDataB (existingData newData : List TireData) : List TireData :=
  (newData.foldl mergeStepB (existingData, existingData.map (fun t => t.url))).1

/-- The sitemap variant's persistence filter (lines 787-789):
`newData.filter(item => item && item.url && item.name && item.sizeNo && item.price)`. -/
def isValidItem (t : TireData) : Bool :=
  truthy t.url && truthy t.name && truthy t.sizeNo && truthy t.price

/-- Observable effect of one `saveData` call: the record-store content that
ends up in the JSON file, and whether the JSON file and the Excel export
were (re)written. -/
structure SaveResult where
  store : List TireData
  jsonWritten : Bool
  excelWritten : Bool
deriving DecidableEq

/-- Spreadsheet-variant `saveData` (lines 285-346): always merges and
writes JSON; regenerates Excel `if (finalSave || mergedData.length % 50 === 0)`
(lines 304-306). -/
def saveDataA (existingData newData : List TireData) (finalSave : Bool) : SaveResult :=
  let mergedData := mergeDataA existingData newData
  { store := mergedData
    jsonWritten := true
    excelWritten := finalSave || mergedData.length % 50 == 0 }

/-- Sitemap-variant `saveData` (lines 784-870): filters the batch down to
valid records; `if (validNewData.length === 0 && !finalSave) return;`
(lines 791-793) writes nothing; otherwise merges the valid records, writes
JSON, and regenerates Excel `if (finalSave || validNewData.length > 0)`
(line 819). -/
def saveDataB (existingData newData : List TireData) (finalSave : Bool) : SaveResult :=
  let validNewData := newData.filter isValidItem
  if validNewData.length == 0 && !finalSave then
    { store := existingData, jsonWritten := false, excelWritten := false }
  else
    { store := mergeDataB existingData validNewData
      jsonWritten := true
      excelWritten := finalSave || decide (0 < validNewData.length) }

/- ### C4: merge dedup invariant -/

theorem mergeStepA_eq (recs : List TireData) (urls : List String) (a : TireData) :
    mergeStepA (recs, urls) a =
      if a.url ∈ urls then (recs, urls) else (recs ++ [a], urls ++ [a.url]) := by
  unfold mergeStepA
  by_cases h : a.url ∈ urls <;> simp [List.contains, List.elem_iff, h]

theorem mergeStepB_eq (recs : List TireData) (urls : List String) (a : TireData) :
    mergeStepB (recs, urls) a =
      if truthy a.url = true ∧ a.url ∉ urls then (recs ++ [a], urls ++ [a.url])
      else (recs, urls) := by
  unfold mergeStepB
  by_cases h1 : truthy a.url = true <;> by_cases h2 : a.url ∈ urls <;>
    simp [List.contains, List.elem_iff, h1, h2]

theorem mergeA_fold_invariant (newData : List TireData) :
    ∀ (recs : List TireData) (urls : List String),
      urls = recs.map (fun t => t.url) → urls.Nodup →
      (newData.foldl mergeStepA (recs, urls)).2
          = (newData.foldl mergeStepA (recs, urls)).1.map (fun t => t.url) ∧
      (newData.foldl mergeStepA (recs, urls)).2.Nodup := by
  induction newData with
  | nil => intro recs urls h1 h2; exact ⟨h1, h2⟩
  | cons a rest ih =>
    intro recs urls h1 h2
    rw [List.foldl_cons, mergeStepA_eq]
    by_cases hc : a.url ∈ urls
    · rw [if_pos hc]; exact ih recs urls h1 h2
    · rw [if_neg hc]
      exact ih _ _ (by simp [h1]) (by simp [List.nodup_append, h2, hc])

theorem mergeB_fold_invariant (newData : List TireData) :
    ∀ (recs : List TireData) (urls : List String),
      urls = recs.map (fun t => t.url) → urls.Nodup →
      (newData.foldl mergeStepB (recs, urls)).2
          = (newData.foldl mergeStepB (recs, urls)).1.map (fun t => t.url) ∧
      (newData.foldl mergeStepB (recs, urls)).2.Nodup := by
  induction newData with
  | nil => intro recs urls h1 h2; exact ⟨h1, h2⟩
  | cons a rest ih =>
    intro recs urls h1 h2
    rw [List.foldl_cons, mergeStepB_eq]
    by_cases hc : truthy a.url = true ∧ a.url ∉ urls
    · rw [if_pos hc]
      exact ih _ _ (by simp [h1]) (by simp [List.nodup_append, h2, hc.2])
    · rw [if_neg hc]; exact ih recs urls h1 h2

theorem mergeDataA_nodup {existingData : List TireData} (newData : List TireData)
    (h : (existingData.map (fun t => t.url)).Nodup) :
    ((mergeDataA existingData newData).map (fun t => t.url)).Nodup := by
  have inv := mergeA_fold_invariant newData existingData
    (existingData.map (fun t => t.url)) rfl h
  unfold mergeDataA
  exact inv.1 ▸ inv.2

theorem mergeDataB_nodup {existingData : List TireData} (newData : List TireData)
    (h : (existingData.map (fun t => t.url)).Nodup) :
    ((mergeDataB existingData newData).map (fun t => t.url)).Nodup := by
  have inv := mergeB_fold_invariant newData existingData
    (existingData.map (fun t => t.url)) rfl h
  unfold mergeDataB
  exact inv.1 ▸ inv.2

theorem mergeA_runs_nodup (batches : List (List TireData)) :
    ∀ store : List TireData, (store.map (fun t => t.url)).Nodup →
      ((batches.foldl mergeDataA store).map (fun t => t.url)).Nodup := by
  induction batches with
  | nil => intro store h; exact h
  | cons b rest ih =>
    intro store h
    exact ih (mergeDataA store b) (mergeDataA_nodup b h)

theorem mergeB_runs_nodup (batches : List (List TireData)) :
    ∀ store : List TireData, (store.map (fun t => t.url)).Nodup →
      ((batches.foldl mergeDataB store).map (fun t => t.url)).Nodup := by
  induction batches with
  | nil => intro store h; exact h
  | cons b rest ih =>
    intro store h
    exact ih (mergeDataB store b) (mergeDataB_nodup b h)

/-- C4: for every sequence of merge operations starting from the empty
Record Store, the resulting store has pairwise-distinct URLs — in both
variants the merge step appends a record only when its URL is not already
in the seen-URL set, so no URL appears twice across flushes. -/
theorem c4_merge_dedup (batches : List (List TireData)) :
    ((batches.foldl mergeDataA []).map (fun t => t.url)).Nodup ∧
    ((batches.foldl mergeDataB []).map (fun t => t.url)).Nodup :=
  ⟨mergeA_runs_nodup batches [] (by simp),
   mergeB_runs_nodup batches [] (by simp)⟩

/- ### C3: when the Excel export is regenerated -/

/-- A record passing the sitemap variant's validity filter. -/
def sampleRecord : TireData :=
  { url := "https://www.pitstoparabia.com/tyres/s"
    name := "Dunlop SP Sport Maxx"
    sizeNo := "225/45R17"
    price := "AED 95.00" }

/-- C3 counterexample: in the sitemap variant, a non-forced flush of one
valid new record onto an empty store yields a merged total of 1 — not a
multiple of 50 — yet the Excel export is regenerated (its condition is
`finalSave || validNewData.length > 0`, line 819), contradicting the claim
that regeneration happens exactly on forced flushes or 50-record
boundaries. -/
theorem c3_counterexample :
    (saveDataB [] [sampleRecord] false).excelWritten = true ∧
    ((false || ((saveDataB [] [sampleRecord] false).store.length % 50 == 0)) = false) := by
  decide

/-- C3 (amended): in the spreadsheet variant the claim holds as stated —
JSON is always written and the Excel export is regenerated exactly when the
flush is forced or the merged total is a multiple of 50; in the sitemap
variant both the JSON store and the Excel export are written exactly when
the flush is forced or the batch contains at least one valid new record
(so a non-forced flush with no valid new records writes nothing at all). -/
theorem c3_excel_regeneration (existingData newData : List TireData) (finalSave : Bool) :
    (saveDataA existingData newData finalSave).jsonWritten = true ∧
    (saveDataA existingData newData finalSave).excelWritten
        = (finalSave || (mergeDataA existingData newData).length % 50 == 0) ∧
    (saveDataB existingData newData finalSave).jsonWritten
        = (finalSave || !(newData.filter isValidItem).isEmpty) ∧
    (saveDataB existingData newData finalSave).excelWritten
        = (finalSave || !(newData.filter isValidItem).isEmpty) := by
  refine ⟨rfl, rfl, ?_, ?_⟩ <;>
  · unfold saveDataB
    by_cases hv : (newData.filter isValidItem).length = 0
    · have hemp : (newData.filter isValidItem).isEmpty = true := by
        rw [List.isEmpty_iff_length_eq_zero]; exact hv
      cases finalSave <;> simp [hv, hemp]
    · have hemp : (newData.filter isValidItem).isEmpty = false := by
        rw [Bool.eq_false_iff, Ne, List.isEmpty_iff_length_eq_zero]; exact hv
      cases finalSave <;> simp [hv, hemp, Nat.pos_of_ne_zero hv]

/- ### C5: only records with mandatory fields reach the store -/

theorem mergeB_fold_mem (newData : List TireData) :
    ∀ (recs : List TireData) (urls : List String) (t : TireData),
      t ∈ (newData.foldl mergeStepB (recs, urls)).1 → t ∈ recs ∨ t ∈ newData := by
  induction newData with
  | nil => intro recs urls t h; exact Or.inl h
  | cons a rest ih =>
    intro recs urls t h
    rw [List.foldl_cons, mergeStepB_eq] at h
    by_cases hc : truthy a.url = true ∧ a.url ∉ urls
    · rw [if_pos hc] at h
      rcases ih _ _ t h with hin | hin
      · rcases List.mem_append.mp hin with h1 | h1
        · exact Or.inl h1
        · simp only [List.mem_singleton] at h1
          exact Or.inr (h1 ▸ List.mem_cons_self a rest)
      · exact Or.inr (List.mem_cons_of_mem a hin)
    · rw [if_neg hc] at h
      rcases ih _ _ t h with hin | hin
      · exact Or.inl hin
      · exact Or.inr (List.mem_cons_of_mem a hin)

theorem saveDataB_store_mem {existingData newData : List TireData} {finalSave : Bool}
    {t : TireData} (h : t ∈ (saveDataB existingData newData finalSave).store) :
    t ∈ existingData ∨ isValidItem t = true := by
  unfold saveDataB at h
  dsimp only at h
  split at h
  · exact Or.inl h
  · unfold mergeDataB at h
    rcases mergeB_fold_mem _ _ _ t h with h1 | h1
    · exact Or.inl h1
    · exact Or.inr (List.of_mem_filter h1)

/-- A run of sitemap-variant flushes: fold `saveData` calls (each a batch of
new records plus the `finalSave` flag) over the initially empty store. -/
def runSaveDataB (ops : List (List TireData × Bool)) : List TireData :=
  ops.foldl (fun store op => (saveDataB store op.1 op.2).store) []

theorem c5_aux (ops : List (List TireData × Bool)) :
    ∀ store : List TireData, (∀ u ∈ store, u.name ≠ "" ∧ u.sizeNo ≠ "") →
      ∀ t ∈ ops.foldl (fun st op => (saveDataB st op.1 op.2).store) store,
        t.name ≠ "" ∧ t.sizeNo ≠ "" := by
  induction ops with
  | nil => intro store h t ht; exact h t ht
  | cons op rest ih =>
    intro store h t ht
    refine ih _ ?_ t ht
    intro u hu
    rcases saveDataB_store_mem hu with h1 | h1
    · exact h u h1
    · unfold isValidItem truthy at h1
      simp only [Bool.and_eq_true, bne_iff_ne, ne_eq] at h1
      exact ⟨h1.1.1.2, h1.1.2⟩

/-- C5: every record in the sitemap variant's Record Store after any
sequence of flushes has a non-empty name and a non-empty size — the
persistence filter (lines 787-789) drops any new record with an empty
mandatory field before the merge, so such a record is never written. -/
theorem c5_store_mandatory_nonempty (ops : List (List TireData × Bool)) (t : TireData)
    (h : t ∈ runSaveDataB ops) : t.name ≠ "" ∧ t.sizeNo ≠ "" :=
  c5_aux ops [] (by simp) t h

/-- C5 witness: the theorem applied to the store produced by one forced
flush of the concrete valid record. -/
theorem c5_store_mandatory_nonempty_witness :
    sampleRecord ∈ runSaveDataB [([sampleRecord], true)] ∧
    sampleRecord.name ≠ "" ∧ sampleRecord.sizeNo ≠ "" :=
  have hmem : sampleRecord ∈ runSaveDataB [([sampleRecord], true)] := by decide
  ⟨hmem, c5_store_mandatory_nonempty [([sampleRecord], true)] sampleRecord hmem⟩

/- ### The fetch-extract-retry pipeline (`scrapeUrl`) -/

/-- Outcome of one HTTP attempt together with the DOM extraction
(`axios.get` plus `scrapeTireData`, both external effects): either a
network/timeout error (the request throws), or a response with an HTTP
status and the record `scrapeTireData` would extract from its body. -/
inductive FetchResult where
  | netError
  | response (status : Nat) (tireData : TireData)
deriving DecidableEq

/-- The body of one `try` block around an attempt (lines 140-160 / 579-599,
identical in both variants): a thrown error is `none` — network error,
`if (response.status !== 200) throw`, or the incomplete-extraction error;
a complete record is `some`. -/
def attemptOutcome : FetchResult → Option TireData
  | FetchResult.netError => none
  | FetchResult.response status t =>
    if status != 200 then none
    else if isIncomplete t then none
    else some t

/-- `CONFIG.maxRetries` of the sitemap variant (line 461). -/
def CONFIG_maxRetries : Nat := 3

/-- `CONFIG.maxRetriesForNonMatches` of the sitemap variant (line 462). -/
def CONFIG_maxRetriesForNonMatches : Nat := 1

/-- `CONFIG.maxRetries` of the spreadsheet variant (line 11). -/
def CONFIG_A_maxRetries : Nat := 3

/-- State threaded through the sitemap variant's `scrapeUrl`: the three
ledger files, the number of HTTP requests issued so far (which also indexes
the oracle), and an instrumentation counter recording how many times the
error handler evaluated its retry budget to `maxRetriesForNonMatches`. -/
structure ScrapeState where
  successList : List String
  failedList : List String
  nonMatchList : List String
  fetchCount : Nat
  nonMatchBudgetUses : Nat
deriving DecidableEq

/-- What `scrapeUrl` hands back to its caller: a complete record, `null`
(non-matching URL), or a propagated exception. -/
inductive ScrapeOutcome where
  | record (t : TireData)
  | nullResult
  | thrown
deriving DecidableEq

/-- The sitemap variant's `scrapeUrl` (lines 570-619).  A non-target URL is
ledgered non-matching and yields `null` before any request.  Otherwise one
attempt is made; on success the URL is ledgered success and the record
returned; on error the retry budget is chosen by re-evaluating
`isTargetUrl` (line 601; the instrumentation counter records every choice
of the non-match budget), the call recurses while `retryCount < maxRetries`,
and on exhaustion the URL is ledgered failed (target) or non-matching
(non-target) and the error propagates. -/
def scrapeUrl (oracle : Nat → FetchResult) (url : String) (retryCount : Nat)
    (st : ScrapeState) : ScrapeOutcome × ScrapeState :=
  if isTargetUrlConfig url then
    let st1 : ScrapeState := { st with fetchCount := st.fetchCount + 1 }
    match attemptOutcome (oracle st.fetchCount) with
    | some tireData =>
      (ScrapeOutcome.record tireData,
       { st1 with successList := saveProgress url st1.successList })
    | none =>
      let st2 : ScrapeState :=
        if isTargetUrlConfig url then st1
        else { st1 with nonMatchBudgetUses := st1.nonMatchBudgetUses + 1 }
      if h : retryCount < (if isTargetUrlConfig url then CONFIG_maxRetries
                           else CONFIG_maxRetriesForNonMatches) then
        scrapeUrl oracle url (retryCount + 1) st2
      else if isTargetUrlConfig url then
        (ScrapeOutcome.thrown, { st2 with failedList := saveProgress url st2.failedList })
      else
        (ScrapeOutcome.thrown, { st2 with nonMatchList := saveProgress url st2.nonMatchList })
  else
    (ScrapeOutcome.nullResult, { st with nonMatchList := saveProgress url st.nonMatchList })
termination_by CONFIG_maxRetries + 1 - retryCount
decreasing_by
  simp only [CONFIG_maxRetries, CONFIG_maxRetriesForNonMatches] at h ⊢
  split at h <;> omega

/-- The spreadsheet variant's `scrapeUrl` (lines 136-172): no ledger
writes; one attempt per call, recursing while `retryCount < CONFIG.maxRetries`;
returns the record or propagates the last error (`none`).  The second
component counts HTTP requests (and indexes the oracle). -/
def scrapeUrlA (oracle : Nat → FetchResult) (retryCount : Nat) (fetchCount : Nat) :
    Option TireData × Nat :=
  match attemptOutcome (oracle fetchCount) with
  | some t => (some t, fetchCount + 1)
  | none =>
    if _h : retryCount < CONFIG_A_maxRetries then
      scrapeUrlA oracle (retryCount + 1) (fetchCount + 1)
    else (none, fetchCount + 1)
termination_by CONFIG_A_maxRetries + 1 - retryCount
decreasing_by omega

/-- Result of the spreadsheet variant's per-URL orchestrator loop. -/
structure ProcessAResult where
  success : Bool
  fetchCount : Nat
  successList : List String
  failedList : List String
deriving DecidableEq

/-- The spreadsheet variant's per-URL retry loop in `runScraper`
(lines 382-415): `while (attempts < CONFIG.maxRetries && !success)`, each
iteration calling `scrapeUrl(url)` afresh (its own four attempts),
re-checking completeness, ledgering success on success, and ledgering the
URL failed once `attempts >= CONFIG.maxRetries`.  The record-store writes
(`saveData`) are modelled separately by `saveDataA`. -/
def processUrlA (oracle : Nat → FetchResult) (url : String) (attempts : Nat)
    (fetchCount : Nat) (successList failedList : List String) : ProcessAResult :=
  if _h : attempts < CONFIG_A_maxRetries then
    match scrapeUrlA oracle 0 fetchCount with
    | (some t, fc) =>
      if isIncomplete t then
        if attempts + 1 >= CONFIG_A_maxRetries then
          { success := false, fetchCount := fc, successList := successList,
            failedList := saveProgress url failedList }
        else processUrlA oracle url (attempts + 1) fc successList failedList
      else
        { success := true, fetchCount := fc,
          successList := saveProgress url successList, failedList := failedList }
    | (none, fc) =>
      if attempts + 1 >= CONFIG_A_maxRetries then
        { success := false, fetchCount := fc, successList := successList,
          failedList := saveProgress url failedList }
      else processUrlA oracle url (attempts + 1) fc successList failedList
  else
    { success := false, fetchCount := fetchCount, successList := successList,
      failedList := failedList }
termination_by CONFIG_A_maxRetries - attempts
decreasing_by all_goals omega

/-- An oracle under which every attempt fails (perpetual network error). -/
def failOracle : Nat → FetchResult := fun _ => FetchResult.netError

/-- The initial (fresh-run) scrape state: empty ledgers, no requests made. -/
def initState : ScrapeState :=
  { successList := [], failedList := [], nonMatchList := [],
    fetchCount := 0, nonMatchBudgetUses := 0 }

theorem scrapeUrlA_fail (oracle : Nat → FetchResult)
    (hfail : ∀ n, attemptOutcome (oracle n) = none) (fc : Nat) :
    scrapeUrlA oracle 0 fc = (none, fc + 4) := by
  simp [scrapeUrlA, hfail, CONFIG_A_maxRetries]

theorem processUrlA_fail (oracle : Nat → FetchResult)
    (hfail : ∀ n, attemptOutcome (oracle n) = none) (url : String)
    (fc : Nat) (sl fl : List String) :
    processUrlA oracle url 0 fc sl fl =
      { success := false, fetchCount := fc + 12, successList := sl,
        failedList := saveProgress url fl } := by
  simp [processUrlA, scrapeUrlA_fail oracle hfail, CONFIG_A_maxRetries]

theorem scrapeUrl_fail_target (oracle : Nat → FetchResult) (url : String)
    (st : ScrapeState) (hfail : ∀ n, attemptOutcome (oracle n) = none)
    (htarget : isTargetUrlConfig url = true) :
    scrapeUrl oracle url 0 st =
      (ScrapeOutcome.thrown,
       { st with fetchCount := st.fetchCount + 4,
                 failedList := saveProgress url st.failedList }) := by
  simp [scrapeUrl, htarget, hfail, CONFIG_maxRetries]

/- ### C2: total attempts before failure classification -/

/-- C2 counterexample: in the spreadsheet variant, the orchestrator's
while-loop (3 iterations) wraps the already-4-attempt `scrapeUrl`, so a
perpetually failing URL receives 12 HTTP attempts — not 4 — before it is
classified failed in the ledger. -/
theorem c2_counterexample :
    (processUrlA failOracle "https://www.pitstoparabia.com/tyres/a" 0 0 [] []).fetchCount = 12 ∧
    (processUrlA failOracle "https://www.pitstoparabia.com/tyres/a" 0 0 [] []).failedList
        = ["https://www.pitstoparabia.com/tyres/a"] ∧
    (12 : Nat) ≠ 4 := by
  rw [processUrlA_fail failOracle (fun _ => rfl)]
  exact ⟨rfl, rfl, by decide⟩

/-- C2 (amended): with `maxRetries = 3` and a perpetually failing
fetch-and-extract, the sitemap variant's `scrapeUrl` performs exactly 4
total attempts (1 initial + 3 retries) on a target URL and then ledgers it
failed; the spreadsheet variant's orchestrator loop runs 3 iterations, each
a fresh 4-attempt `scrapeUrl` call, so it performs 12 total attempts before
ledgering the URL failed. -/
theorem c2_retry_budget (oracle : Nat → FetchResult) (url : String) (st : ScrapeState)
    (fc : Nat) (sl fl : List String)
    (hfail : ∀ n, attemptOutcome (oracle n) = none)
    (htarget : isTargetUrlConfig url = true) :
    scrapeUrl oracle url 0 st =
      (ScrapeOutcome.thrown,
       { st with fetchCount := st.fetchCount + 4,
                 failedList := saveProgress url st.failedList }) ∧
    processUrlA oracle url 0 fc sl fl =
      { success := false, fetchCount := fc + 12, successList := sl,
        failedList := saveProgress url fl } :=
  ⟨scrapeUrl_fail_target oracle url st hfail htarget,
   processUrlA_fail oracle hfail url fc sl fl⟩

/-- C2 witness: the amended theorem at the always-failing oracle, a
concrete target URL and fresh state. -/
theorem c2_retry_budget_witness :
    scrapeUrl failOracle "https://www.pitstoparabia.com/tyres/w" 0 initState =
      (ScrapeOutcome.thrown,
       { initState with fetchCount := 4,
                        failedList := ["https://www.pitstoparabia.com/tyres/w"] }) ∧
    processUrlA failOracle "https://www.pitstoparabia.com/tyres/w" 0 0 [] [] =
      { success := false, fetchCount := 12, successList := [],
        failedList := ["https://www.pitstoparabia.com/tyres/w"] } := by
  have h := c2_retry_budget failOracle "https://www.pitstoparabia.com/tyres/w" initState 0 [] []
    (fun _ => rfl) (by decide)
  simpa [initState, saveProgress] using h

/- ### C9: non-matching URLs are classified without any fetch -/

theorem scrapeUrl_nonMatchBudget_aux (oracle : Nat → FetchResult) (url : String) :
    ∀ (k retryCount : Nat) (st : ScrapeState),
      CONFIG_maxRetries + 1 - retryCount ≤ k →
      (scrapeUrl oracle url retryCount st).2.nonMatchBudgetUses = st.nonMatchBudgetUses := by
  intro k
  induction k with
  | zero =>
    intro rc st hk
    have hnr : ¬ rc < CONFIG_maxRetries := by unfold CONFIG_maxRetries at *; omega
    have hnr2 : ¬ rc < CONFIG_maxRetriesForNonMatches := by
      unfold CONFIG_maxRetries CONFIG_maxRetriesForNonMatches at *; omega
    rw [scrapeUrl.eq_def]
    by_cases ht : isTargetUrlConfig url = true <;>
      cases ho : attemptOutcome (oracle st.fetchCount) <;>
        simp [ht, ho, hnr, hnr2]
  | succ k ih =>
    intro rc st hk
    by_cases ht : isTargetUrlConfig url = true
    · rw [scrapeUrl.eq_def]
      cases ho : attemptOutcome (oracle st.fetchCount) with
      | some t => simp [ht, ho]
      | none =>
        by_cases hr : rc < CONFIG_maxRetries
        · simp only [ht, ho, if_true, hr, dif_pos, if_pos]
          rw [ih (rc + 1) _ (by unfold CONFIG_maxRetries at *; omega)]
        · simp [ht, ho, hr]
    · rw [scrapeUrl.eq_def]
      simp [ht]

/-- C9: a URL rejected by the target-domain predicate is ledgered
non-matching and yields no record, with no HTTP request at all (the state
is unchanged except for the non-match ledger); and for every URL, oracle
and state, the error handler's non-match retry budget
(`maxRetriesForNonMatches`) is never chosen — that branch is unreachable. -/
theorem c9_nonmatch_classified_without_fetch (oracle : Nat → FetchResult) (url : String)
    (retryCount : Nat) (st : ScrapeState) :
    (isTargetUrlConfig url = false →
      scrapeUrl oracle url retryCount st =
        (ScrapeOutcome.nullResult,
         { st with nonMatchList := saveProgress url st.nonMatchList })) ∧
    (scrapeUrl oracle url retryCount st).2.nonMatchBudgetUses = st.nonMatchBudgetUses := by
  constructor
  · intro h
    rw [scrapeUrl.eq_def]
    simp [h]
  · exact scrapeUrl_nonMatchBudget_aux oracle url (CONFIG_maxRetries + 1) retryCount st
      (by omega)

/-- C9 witness: the theorem at a concrete out-of-scope URL and fresh
state. -/
theorem c9_nonmatch_witness :
    scrapeUrl failOracle "https://other.com/x" 0 initState =
      (ScrapeOutcome.nullResult,
       { initState with nonMatchList := ["https://other.com/x"] }) ∧
    (scrapeUrl failOracle "https://other.com/x" 0 initState).2.nonMatchBudgetUses
        = initState.nonMatchBudgetUses := by
  have h := c9_nonmatch_classified_without_fetch failOracle "https://other.com/x" 0 initState
  exact ⟨by simpa [initState, saveProgress] using h.1 (by decide), h.2⟩

/- ### C10: persistence filter is strictly stronger than the success criterion -/

/-- The sitemap variant's resumption filter (lines 941-946): a URL is
re-processed only when absent from all three ledger sets. -/
def urlsToProcess (urls successUrls failedUrls nonMatchUrls : List String) : List String :=
  urls.filter (fun url =>
    !(successUrls.contains url) && !(failedUrls.contains url) &&
      !(nonMatchUrls.contains url))

/-- A record with non-empty name and size but an empty price: complete for
the success criterion, invalid for the persistence filter. -/
def gapRecord : TireData :=
  { url := "https://www.pitstoparabia.com/tyres/g"
    name := "Goodyear Eagle F1"
    sizeNo := "245/40R18"
    price := "" }

/-- C10: the persistence filter (url, name, sizeNo and price all non-empty)
strictly implies the success criterion (name and sizeNo non-empty); the
concrete `gapRecord` passes the success criterion but fails the filter; a
record with an empty price is never added to the Record Store by `saveData`;
a URL in the success ledger is never re-processed on resumption; and
`scrapeUrl` marks such a URL success and returns the record as soon as the
extraction is complete, price notwithstanding. -/
theorem c10_success_store_gap :
    (∀ t : TireData, isValidItem t = true → successCriterion t = true) ∧
    successCriterion gapRecord = true ∧
    isValidItem gapRecord = false ∧
    (∀ (ex new : List TireData) (fin : Bool) (t : TireData),
        t.price = "" → t ∈ (saveDataB ex new fin).store → t ∈ ex) ∧
    (∀ (urls s f n : List String) (u : String), u ∈ s → u ∉ urlsToProcess urls s f n) ∧
    scrapeUrl (fun _ => FetchResult.response 200 gapRecord) gapRecord.url 0 initState =
      (ScrapeOutcome.record gapRecord,
       { initState with successList := [gapRecord.url], fetchCount := 1 }) := by
  refine ⟨?_, by decide, by decide, ?_, ?_, ?_⟩
  · intro t h
    unfold isValidItem at h
    simp only [Bool.and_eq_true] at h
    simp [successCriterion, isIncomplete, h.1.1.2, h.1.2]
  · intro ex new fin t hprice hmem
    rcases saveDataB_store_mem hmem with h1 | h1
    · exact h1
    · exfalso
      unfold isValidItem truthy at h1
      simp only [Bool.and_eq_true, bne_iff_ne, ne_eq] at h1
      exact h1.2 hprice
  · intro urls s f n u hu hmem
    rw [urlsToProcess, List.mem_filter] at hmem
    simp only [Bool.and_eq_true, Bool.not_eq_true', List.contains] at hmem
    have helem : List.elem u s = true := List.elem_iff.mpr hu
    rw [hmem.2.1.1] at helem
    exact Bool.false_ne_true helem
  · have ht : isTargetUrlConfig "https://www.pitstoparabia.com/tyres/g" = true := by decide
    rw [scrapeUrl.eq_def]
    simp [ht, attemptOutcome, gapRecord, initState, saveProgress, isIncomplete, truthy]

/-- C10 witness: the theorem's universally quantified conjuncts applied at
concrete inputs. -/
theorem c10_success_store_gap_witness :
    successCriterion sampleRecord = true ∧
    gapRecord ∈ [gapRecord] ∧
    "https://u" ∉ urlsToProcess ["https://u"] ["https://u"] [] [] :=
  ⟨c10_success_store_gap.1 sampleRecord (by decide),
   c10_success_store_gap.2.2.2.1 [gapRecord] [] true gapRecord rfl (by decide),
   c10_success_store_gap.2.2.2.2.1 ["https://u"] ["https://u"] [] [] "https://u" (by decide)⟩
